import Mathlib

/-!
Verification of the Tool Invocation Adapter of the langchain-fax repository.

The adapter (src/langchain_fax/tools.py) exposes two request handlers:
`FaxPlusTool._run` (Send) and `FaxPlusStatusTool._run` (Status).  Each parses
a JSON input string, validates required fields, lazily initializes remote API
clients, delegates to the remote Fax.Plus service, and formats the outcome as
a plain string.  We embed the handlers as total Lean functions over

  * a `Json` value type mirroring the values `json.loads` can produce
    (numbers modelled as integers; the claims under study involve none others),
  * an `Env` record of deterministic functions standing for the external
    collaborators (`os.path.exists`, file reads, and the remote service calls),
  * an explicit `Option`-typed client field standing for the lazily created
    attribute set by `_init_client`, and
  * a trace (`List Call`) of the remote calls an invocation performs.

`json.loads` itself is an external library call; it is modelled by letting
handlers take the parse outcome (`Except Unit Json`) as input, `Except.error`
standing for `json.JSONDecodeError`.  The `FaxHistoryTool` referenced by
`src/langchain_fax/__init__.py` and the test-suite has no definition under
`src/langchain_fax/tools.py`; it is modelled from the specification further
below, and marked as such.
-/

/-- JSON values as produced by `json.loads`.  Numbers are modelled as
integers; object member lists keep source order, with lookups returning the
last binding of a key, as Python `dict` construction from JSON text does. -/
inductive Json where
  | null : Json
  | bool : Bool → Json
  | num : Int → Json
  | str : String → Json
  | arr : List Json → Json
  | obj : List (String × Json) → Json
deriving Repr

/-- Python truthiness test (`if not x:`) restricted to JSON-decodable values:
`None`, `False`, `0`, `""`, `[]` and `\x7b\x7d` are falsy, all else truthy. -/
def Json.falsy : Json → Bool
  | .null => true
  | .bool b => !b
  | .num n => n == 0
  | .str s => s == ""
  | .arr l => l.isEmpty
  | .obj l => l.isEmpty

/-- `input_data.get(k)`: the value of the last binding of `k`, or `None`
(`Json.null`) when the key is absent. -/
def Json.dictGet (kvs : List (String × Json)) (k : String) : Json :=
  match kvs.reverse.find? (fun p => p.1 == k) with
  | some p => p.2
  | none => .null

/-- `input_data.get(k, d)`: like `Json.dictGet` but with an explicit default. -/
def Json.dictGetD (kvs : List (String × Json)) (k : String) (d : Json) : Json :=
  match kvs.reverse.find? (fun p => p.1 == k) with
  | some p => p.2
  | none => d

/-- The Python runtime type name of a decoded JSON value, as it appears in
`AttributeError` messages. -/
def Json.pyType : Json → String
  | .null => "NoneType"
  | .bool _ => "bool"
  | .num _ => "int"
  | .str _ => "str"
  | .arr _ => "list"
  | .obj _ => "dict"

/-- Message of the `AttributeError` raised by `x.get(...)` when the decoded
input is not a dict. -/
def Json.attrGetErr (j : Json) : String :=
  "'" ++ j.pyType ++ "' object has no attribute 'get'"

/-- Lowercase hexadecimal digit. -/
def hexDigit (n : Nat) : Char :=
  if n < 10 then Char.ofNat (48 + n) else Char.ofNat (87 + n)

/-- Four lowercase hex digits, as in a JSON `\uXXXX` escape. -/
def hex4 (n : Nat) : String :=
  String.mk [hexDigit (n / 4096 % 16), hexDigit (n / 256 % 16),
             hexDigit (n / 16 % 16), hexDigit (n % 16)]

/-- Escaping of one character inside a JSON string literal, following
`json.dumps` with its default `ensure_ascii=True`: printable ASCII other than
quote and backslash is kept, everything else is escaped, astral code points
as surrogate pairs. -/
def escChar (c : Char) : String :=
  if c = '"' then "\\\""
  else if c = '\\' then "\\\\"
  else if c = '\n' then "\\n"
  else if c = '\r' then "\\r"
  else if c = '\t' then "\\t"
  else if c.toNat = 8 then "\\b"
  else if c.toNat = 12 then "\\f"
  else if c.toNat < 32 then "\\u" ++ hex4 c.toNat
  else if c.toNat < 127 then String.singleton c
  else if c.toNat < 65536 then "\\u" ++ hex4 c.toNat
  else
    "\\u" ++ hex4 (55296 + (c.toNat - 65536) / 1024) ++
    "\\u" ++ hex4 (56320 + (c.toNat - 65536) % 1024)

/-- A JSON string literal for `s`, as `json.dumps` renders it. -/
def quoteStr (s : String) : String :=
  "\"" ++ String.join (s.data.map escChar) ++ "\""

/-- `n` spaces. -/
def spaces (n : Nat) : String :=
  String.mk (List.replicate n ' ')

mutual

/-- `json.dumps(v, indent=ind)` rendering of a value at nesting level `lvl`
(default separators: items end with a comma and a newline, keys are followed
by a colon and one space). -/
def Json.dumpsV (ind : Nat) : Json → Nat → String
  | .null, _ => "null"
  | .bool true, _ => "true"
  | .bool false, _ => "false"
  | .num n, _ => toString n
  | .str s, _ => quoteStr s
  | .arr [], _ => "[]"
  | .arr (x :: xs), lvl =>
      "[\n" ++
      String.intercalate ",\n" (Json.dumpsArr ind (x :: xs) (lvl + 1)) ++
      "\n" ++ spaces (ind * lvl) ++ "]"
  | .obj [], _ => "\x7b\x7d"
  | .obj (x :: xs), lvl =>
      "\x7b\n" ++
      String.intercalate ",\n" (Json.dumpsObj ind (x :: xs) (lvl + 1)) ++
      "\n" ++ spaces (ind * lvl) ++ "\x7d"

/-- Rendered array elements, one per line, indented to level `lvl`. -/
def Json.dumpsArr (ind : Nat) : List Json → Nat → List String
  | [], _ => []
  | x :: xs, lvl =>
      (spaces (ind * lvl) ++ Json.dumpsV ind x lvl) :: Json.dumpsArr ind xs lvl

/-- Rendered object members, one per line, indented to level `lvl`. -/
def Json.dumpsObj (ind : Nat) : List (String × Json) → Nat → List String
  | [], _ => []
  | (k, v) :: xs, lvl =>
      (spaces (ind * lvl) ++ quoteStr k ++ ": " ++ Json.dumpsV ind v lvl) ::
      Json.dumpsObj ind xs lvl

end

/-- `json.dumps(v, indent=2)` as called by the Status handler. -/
def Json.dumps2 (v : Json) : String :=
  Json.dumpsV 2 v 0

/-- `FaxPlusTool._get_mime_type`: the static extension-to-MIME table of
src/langchain_fax/tools.py, keyed by dotted lowercase extensions. -/
def mime_types : List (String × String) :=
  [(".pdf", "application/pdf"),
   (".tiff", "image/tiff"),
   (".tif", "image/tiff"),
   (".jpg", "image/jpeg"),
   (".jpeg", "image/jpeg"),
   (".png", "image/png"),
   (".doc", "application/msword"),
   (".docx", "application/vnd.openxmlformats-officedocument.wordprocessingml.document"),
   (".txt", "text/plain")]

/-- `FaxPlusTool._get_mime_type(extension)`: table lookup with the
octet-stream default (`mime_types.get(extension, "application/octet-stream")`). -/
def get_mime_type (extension : String) : String :=
  match mime_types.find? (fun p => p.1 == extension) with
  | some p => p.2
  | none => "application/octet-stream"

/-- `os.path.basename`: the part of the path after the last slash. -/
def basename (p : String) : String :=
  String.mk (p.data.foldl (fun acc c => if c = '/' then [] else acc ++ [c]) [])

/-- `str.lower()` restricted to the ASCII range, character by character. -/
def lowerStr (s : String) : String :=
  String.mk (s.data.map Char.toLower)

/-- Index of the last `.` in a character list, if any. -/
def lastDot : List Char → Option Nat
  | [] => none
  | c :: cs =>
      match lastDot cs with
      | some i => some (i + 1)
      | none => if c = '.' then some 0 else none

/-- `os.path.splitext` on a path with no directory part: split at the last
dot, except that a name consisting only of leading dots up to that point has
no extension. -/
def splitext (b : String) : String × String :=
  match lastDot b.data with
  | none => (b, "")
  | some i =>
      if (b.data.take i).all (fun c => c = '.') then (b, "")
      else (String.mk (b.data.take i), String.mk (b.data.drop i))

/-- An initialized Fax.Plus API client, determined by the configured key
(`faxplus.ApiClient(configuration)` with `configuration.api_key` set). -/
structure Client where
  key : String
deriving Repr, DecidableEq

/-- The three API client attributes set together by `FaxPlusTool._init_client`. -/
structure ApiClients where
  files_api : Client
  outbox_api : Client
  accounts_api : Client
deriving Repr, DecidableEq

/-- `FaxPlusTool._init_client`: builds all three clients from the key. -/
def initApiClients (api_key : String) : ApiClients :=
  ⟨⟨api_key⟩, ⟨api_key⟩, ⟨api_key⟩⟩

/-- `FaxPlusStatusTool._init_client`: builds the outbox client from the key. -/
def initOutboxClient (api_key : String) : Client :=
  ⟨api_key⟩

/-- Description of a remote-service failure (`str(e)` of the exception). -/
structure RemoteErr where
  msg : String
deriving Repr, DecidableEq

/-- The uploaded-file record returned by `files_api.upload_file`. -/
structure UploadedFile where
  id : String
deriving Repr, DecidableEq

/-- The record returned by `outbox_api.send_fax`. -/
structure FaxResult where
  id : String
deriving Repr, DecidableEq

/-- The record returned by `outbox_api.get_outbox_fax`; the Status handler
reads exactly these five attributes, modelled as JSON values. -/
structure FaxRecord where
  status : Json
  completed : Json
  cost : Json
  pagecount : Json
  created_at : Json
deriving Repr

/-- One remote call made by a handler, with the arguments passed. -/
inductive Call where
  | upload_file : String → List Nat → String → String → Call
  | send_fax : String → Json → Json → Json → String → Call
  | get_outbox_fax : String → Json → Call
deriving Repr

/-- Description (`str(e)`) of a local Python exception raised while opening
or reading a file inside the handler's `try` block — for example an
`IsADirectoryError` when the path names a directory. -/
structure PyErr where
  msg : String
deriving Repr, DecidableEq

/-- The external collaborators, as deterministic functions: the filesystem
(`os.path.exists` on a string path or on an integer file descriptor, and
`open`/`read` on each — both can fail locally, e.g. on a directory path or a
non-readable descriptor) and the three remote operations, each either
failing with a message or succeeding. -/
structure Env where
  path_exists : String → Bool
  fd_exists : Int → Bool
  read_bytes : String → Except PyErr (List Nat)
  read_fd : Int → Except PyErr (List Nat)
  upload_file : String → List Nat → String → String → Except RemoteErr UploadedFile
  send_fax : String → Json → Json → Json → String → Except RemoteErr FaxResult
  get_outbox_fax : String → Json → Except RemoteErr FaxRecord

/-- Result of one Send invocation: the returned string, the instance's
client attributes afterwards, and the trace of remote calls made. -/
structure SendOutcome where
  result : String
  state : Option ApiClients
  calls : List Call
deriving Repr

/-- Result of one Status invocation. -/
structure StatusOutcome where
  result : String
  state : Option Client
  calls : List Call
deriving Repr

/-- `str(TypeError)` message produced by `os.path.exists` on a list or dict
argument (ints and bools are accepted as file descriptors and do not raise);
the surrounding `except Exception` formats it. -/
def pathTypeErr (j : Json) : String :=
  "stat: path should be string, bytes, os.PathLike or integer, not " ++ j.pyType

/-- `str(TypeError)` raised by `os.path.basename` on an int or bool path,
reached after the descriptor was successfully opened and read. -/
def basenameTypeErr (j : Json) : String :=
  "expected str, bytes or os.PathLike object, not " ++ j.pyType

/-- `FaxPlusTool._run` (src/langchain_fax/tools.py, lines 47-117), embedded
over the parse outcome of the input string.  `st` is the value of the lazily
set client attributes before the call (`none` when `_init_client` has not run
on this instance).  Validation failures return before any remote call; once
the file-existence check passes the clients are initialized if absent, the
file is opened and read (a step that can itself fail), the file is uploaded,
and the fax submitted; `json.JSONDecodeError` and every other exception are
caught and formatted.  A truthy non-string `file_path` follows Python:
`os.path.exists` accepts an int as a file descriptor (and `True`, an int
equal to 1); if the descriptor exists the clients are initialized and the
descriptor is opened and read, after which `os.path.basename` raises a
`TypeError`; list and dict paths make `os.path.exists` itself raise. -/
def runSend (api_key account_id : String) (st : Option ApiClients) (env : Env)
    (input : Except Unit Json) : SendOutcome :=
  match input with
  | .error _ =>
      ⟨"Error: Invalid JSON input. Please provide a valid JSON object.", st, []⟩
  | .ok j =>
      match j with
      | .obj kvs =>
          let fax_number := Json.dictGet kvs "fax_number"
          let subject := Json.dictGet kvs "subject"
          let file_path := Json.dictGet kvs "file_path"
          let comment := Json.dictGetD kvs "comment" (.str "")
          if fax_number.falsy then
            ⟨"Error: Recipient fax number is required", st, []⟩
          else if subject.falsy then
            ⟨"Error: Subject is required", st, []⟩
          else if file_path.falsy then
            ⟨"Error: File path is required", st, []⟩
          else
            match file_path with
            | .str p =>
                if env.path_exists p = false then
                  ⟨"Error: File not found at " ++ p, st, []⟩
                else
                  let clients := st.getD (initApiClients api_key)
                  match env.read_bytes p with
                  | .error e =>
                      ⟨"Error sending fax: " ++ e.msg, some clients, []⟩
                  | .ok file_content =>
                      let file_name := basename p
                      let file_extension := lowerStr (splitext file_name).2
                      let mime_type := get_mime_type file_extension
                      let up := Call.upload_file account_id file_content file_name
                        mime_type
                      match env.upload_file account_id file_content file_name
                          mime_type with
                      | .error e =>
                          ⟨"Error sending fax: " ++ e.msg, some clients, [up]⟩
                      | .ok uploaded_file =>
                          let sf := Call.send_fax account_id fax_number subject
                            comment uploaded_file.id
                          match env.send_fax account_id fax_number subject comment
                              uploaded_file.id with
                          | .error e =>
                              ⟨"Error sending fax: " ++ e.msg, some clients,
                                [up, sf]⟩
                          | .ok fax_result =>
                              ⟨"Fax successfully queued. Fax ID: " ++ fax_result.id,
                                some clients, [up, sf]⟩
            | .num n =>
                if env.fd_exists n = false then
                  ⟨"Error: File not found at " ++ toString n, st, []⟩
                else
                  let clients := st.getD (initApiClients api_key)
                  match env.read_fd n with
                  | .error e =>
                      ⟨"Error sending fax: " ++ e.msg, some clients, []⟩
                  | .ok _ =>
                      ⟨"Error sending fax: " ++ basenameTypeErr (.num n),
                        some clients, []⟩
            | .bool b =>
                if env.fd_exists 1 = false then
                  ⟨"Error: File not found at True", st, []⟩
                else
                  let clients := st.getD (initApiClients api_key)
                  match env.read_fd 1 with
                  | .error e =>
                      ⟨"Error sending fax: " ++ e.msg, some clients, []⟩
                  | .ok _ =>
                      ⟨"Error sending fax: " ++ basenameTypeErr (.bool b),
                        some clients, []⟩
            | _ =>
                ⟨"Error sending fax: " ++ pathTypeErr file_path, st, []⟩
      | _ =>
          ⟨"Error sending fax: " ++ j.attrGetErr, st, []⟩

/-- The `status_info` dict built by `FaxPlusStatusTool._run` from the request
id and the remote record. -/
def statusInfo (fax_id : Json) (r : FaxRecord) : List (String × Json) :=
  [("fax_id", fax_id), ("status", r.status), ("completed", r.completed),
   ("cost", r.cost), ("pagecount", r.pagecount), ("created_at", r.created_at)]

/-- `FaxPlusStatusTool._run` (src/langchain_fax/tools.py, lines 156-195),
embedded over the parse outcome of the input string. -/
def runStatus (api_key account_id : String) (st : Option Client) (env : Env)
    (input : Except Unit Json) : StatusOutcome :=
  match input with
  | .error _ =>
      ⟨"Error: Invalid JSON input. Please provide a valid JSON object.", st, []⟩
  | .ok j =>
      match j with
      | .obj kvs =>
          let fax_id := Json.dictGet kvs "fax_id"
          if fax_id.falsy then
            ⟨"Error: Fax ID is required", st, []⟩
          else
            let client := st.getD (initOutboxClient api_key)
            let gf := Call.get_outbox_fax account_id fax_id
            match env.get_outbox_fax account_id fax_id with
            | .error e =>
                ⟨"Error checking fax status: " ++ e.msg, some client, [gf]⟩
            | .ok fax_status =>
                ⟨Json.dumps2 (.obj (statusInfo fax_id fax_status)),
                  some client, [gf]⟩
      | _ =>
          ⟨"Error checking fax status: " ++ j.attrGetErr, st, []⟩

/-- One fax record of the history listing, with the four attributes the
History handler reports. -/
structure HistRecord where
  id : String
  status : String
  recipient : String
  date : String
deriving Repr, DecidableEq

/-- Modelled from the spec: the remote fax-history listing consumed by
`FaxHistoryTool`, which has no definition under src/langchain_fax/tools.py
(only the import in src/langchain_fax/__init__.py and the reference tests
mention it).  The client returns at most `limit` records when a limit is
given, in service-defined order. -/
structure HistEnv where
  get_fax_list : Option Nat → List HistRecord
  le_limit : ∀ n, (get_fax_list (some n)).length ≤ n

/-- Modelled from the spec: the one-line summary of a history record,
carrying its id, status, recipient and date. -/
def histLine (r : HistRecord) : String :=
  r.id ++ " | " ++ r.status ++ " | " ++ r.recipient ++ " | " ++ r.date

/-- Modelled from the spec: the History handler accepts an optional `limit`,
queries the Remote Fax Service Client for up to `limit` records and emits
one line per record. -/
def runHistory (env : HistEnv) (limit : Option Nat) : String :=
  String.intercalate "\n" ((env.get_fax_list limit).map histLine)

/-- A remote service and filesystem on which every operation succeeds:
every path exists, uploads yield file id `file-1`, submissions yield fax id
`fax-1`, and status lookups yield a fixed record.  Used to instantiate the
theorems below at concrete inputs. -/
def envOk : Env where
  path_exists := fun _ => true
  fd_exists := fun _ => false
  read_bytes := fun _ => .ok [37, 80, 68, 70]
  read_fd := fun _ => .error ⟨"[Errno 9] Bad file descriptor"⟩
  upload_file := fun _ _ _ _ => .ok ⟨"file-1"⟩
  send_fax := fun _ _ _ _ _ => .ok ⟨"fax-1"⟩
  get_outbox_fax := fun _ _ =>
    .ok ⟨.str "success", .null, .num 1, .num 2, .str "2023-01-01T12:00:00Z"⟩

/-- A filesystem on which no path exists (remote operations as in `envOk`). -/
def envNoFile : Env :=
  { envOk with path_exists := fun _ => false }

/-- A remote service on which every remote operation fails with message `m`
(every path exists). -/
def envFail (m : String) : Env where
  path_exists := fun _ => true
  fd_exists := fun _ => false
  read_bytes := fun _ => .ok [37, 80, 68, 70]
  read_fd := fun _ => .error ⟨"[Errno 9] Bad file descriptor"⟩
  upload_file := fun _ _ _ _ => .error ⟨m⟩
  send_fax := fun _ _ _ _ _ => .error ⟨m⟩
  get_outbox_fax := fun _ _ => .error ⟨m⟩

/-- A service on which only the fax submission fails with message `m`
(everything else as in `envOk`). -/
def envSendFail (m : String) : Env :=
  { envOk with send_fax := fun _ _ _ _ _ => .error ⟨m⟩ }

/-- A filesystem on which every path exists but opening or reading any file
fails locally with message `m` (remote operations as in `envOk`). -/
def envReadFail (m : String) : Env :=
  { envOk with read_bytes := fun _ => .error ⟨m⟩ }

/-- Claim C8: on an input string that does not parse as JSON, both the Send
handler and the Status handler return exactly
"Error: Invalid JSON input. Please provide a valid JSON object.", perform no
remote call, and leave the client state unchanged. -/
theorem invalid_json_rejected (api_key account_id : String)
    (stS : Option ApiClients) (stT : Option Client) (env : Env) :
    runSend api_key account_id stS env (.error ()) =
      ⟨"Error: Invalid JSON input. Please provide a valid JSON object.", stS, []⟩ ∧
    runStatus api_key account_id stT env (.error ()) =
      ⟨"Error: Invalid JSON input. Please provide a valid JSON object.", stT, []⟩ :=
  ⟨rfl, rfl⟩

/-- Claim C1: on a JSON-object input, the Send handler checks the required
fields in the order recipient number, subject, file path; the first one
missing (absent keys look up as `None`, which the `if not x` test detects)
determines the exact error string returned, and no remote call is made. -/
theorem send_missing_required_field_order (api_key account_id : String)
    (st : Option ApiClients) (env : Env) (kvs : List (String × Json)) :
    ((Json.dictGet kvs "fax_number").falsy = true →
      runSend api_key account_id st env (.ok (.obj kvs)) =
        ⟨"Error: Recipient fax number is required", st, []⟩) ∧
    ((Json.dictGet kvs "fax_number").falsy = false →
      (Json.dictGet kvs "subject").falsy = true →
      runSend api_key account_id st env (.ok (.obj kvs)) =
        ⟨"Error: Subject is required", st, []⟩) ∧
    ((Json.dictGet kvs "fax_number").falsy = false →
      (Json.dictGet kvs "subject").falsy = false →
      (Json.dictGet kvs "file_path").falsy = true →
      runSend api_key account_id st env (.ok (.obj kvs)) =
        ⟨"Error: File path is required", st, []⟩) := by
  refine ⟨fun h1 => ?_, fun h1 h2 => ?_, fun h1 h2 h3 => ?_⟩ <;>
    simp [runSend, h1]
  · simp [h2]
  · simp [h2, h3]

/-- Instantiation of `send_missing_required_field_order`: the input
providing only a subject draws the recipient-number error with an empty
call trace. -/
theorem send_missing_required_field_order_witness :
    (Json.dictGet [("subject", Json.str "hello")] "fax_number").falsy = true ∧
    runSend "key" "acct" none envOk (.ok (.obj [("subject", Json.str "hello")])) =
      ⟨"Error: Recipient fax number is required", none, []⟩ :=
  ⟨by decide,
   (send_missing_required_field_order "key" "acct" none envOk
      [("subject", Json.str "hello")]).1 (by decide)⟩

/-- Claim C3: when all three required fields are present and truthy but the
file path does not reference an existing file, the Send handler returns
exactly "Error: File not found at " followed by the given path, and performs
no remote call (in particular no upload). -/
theorem send_file_not_found (api_key account_id : String)
    (st : Option ApiClients) (env : Env) (kvs : List (String × Json)) (p : String)
    (h1 : (Json.dictGet kvs "fax_number").falsy = false)
    (h2 : (Json.dictGet kvs "subject").falsy = false)
    (h3 : Json.dictGet kvs "file_path" = .str p)
    (hp : p ≠ "")
    (h4 : env.path_exists p = false) :
    runSend api_key account_id st env (.ok (.obj kvs)) =
      ⟨"Error: File not found at " ++ p, st, []⟩ := by
  have hfp : (Json.str p).falsy = false := by
    simp [Json.falsy, hp]
  simp [runSend, h1, h2, h3, hfp, h4]

/-- Instantiation of `send_file_not_found` on `envNoFile` at the path
"/tmp/missing.pdf". -/
theorem send_file_not_found_witness :
    (Json.dictGet [("fax_number", Json.str "+1"), ("subject", Json.str "S"),
        ("file_path", Json.str "/tmp/missing.pdf")] "fax_number").falsy = false ∧
    envNoFile.path_exists "/tmp/missing.pdf" = false ∧
    runSend "key" "acct" none envNoFile
        (.ok (.obj [("fax_number", Json.str "+1"), ("subject", Json.str "S"),
          ("file_path", Json.str "/tmp/missing.pdf")])) =
      ⟨"Error: File not found at /tmp/missing.pdf", none, []⟩ :=
  ⟨by decide, rfl,
   send_file_not_found "key" "acct" none envNoFile
     [("fax_number", Json.str "+1"), ("subject", Json.str "S"),
      ("file_path", Json.str "/tmp/missing.pdf")] "/tmp/missing.pdf"
     (by decide) (by decide) rfl (by decide) rfl⟩

/-- Claim C10: a required field bound to an empty string, `null`, or any
other falsy JSON value is treated exactly like an absent field: the handler
returns the same "... is required" string as when the key is missing
entirely, and performs no remote call.  Stated for each required field of
the Send handler (in validation order) and for the Status handler's fax id. -/
theorem falsy_fields_treated_as_missing (api_key account_id : String)
    (st : Option ApiClients) (stT : Option Client) (env : Env) :
    (∀ v s p : Json, v.falsy = true →
      runSend api_key account_id st env
          (.ok (.obj [("fax_number", v), ("subject", s), ("file_path", p)])) =
        ⟨"Error: Recipient fax number is required", st, []⟩ ∧
      runSend api_key account_id st env
          (.ok (.obj [("subject", s), ("file_path", p)])) =
        ⟨"Error: Recipient fax number is required", st, []⟩) ∧
    (∀ f v p : Json, f.falsy = false → v.falsy = true →
      runSend api_key account_id st env
          (.ok (.obj [("fax_number", f), ("subject", v), ("file_path", p)])) =
        ⟨"Error: Subject is required", st, []⟩ ∧
      runSend api_key account_id st env
          (.ok (.obj [("fax_number", f), ("file_path", p)])) =
        ⟨"Error: Subject is required", st, []⟩) ∧
    (∀ f s v : Json, f.falsy = false → s.falsy = false → v.falsy = true →
      runSend api_key account_id st env
          (.ok (.obj [("fax_number", f), ("subject", s), ("file_path", v)])) =
        ⟨"Error: File path is required", st, []⟩ ∧
      runSend api_key account_id st env
          (.ok (.obj [("fax_number", f), ("subject", s)])) =
        ⟨"Error: File path is required", st, []⟩) ∧
    (∀ v : Json, v.falsy = true →
      runStatus api_key account_id stT env (.ok (.obj [("fax_id", v)])) =
        ⟨"Error: Fax ID is required", stT, []⟩ ∧
      runStatus api_key account_id stT env (.ok (.obj [])) =
        ⟨"Error: Fax ID is required", stT, []⟩) := by
  have hnull : Json.falsy .null = true := rfl
  refine ⟨fun v s p h => ⟨?_, ?_⟩, fun f v p hf h => ⟨?_, ?_⟩,
          fun f s v hf hs h => ⟨?_, ?_⟩, fun v h => ⟨?_, ?_⟩⟩
  · simp [runSend, Json.dictGet, h]
  · simp [runSend, Json.dictGet, hnull]
  · simp [runSend, Json.dictGet, h, hf]
  · simp [runSend, Json.dictGet, hnull, hf]
  · simp [runSend, Json.dictGet, h, hf, hs]
  · simp [runSend, Json.dictGet, hnull, hf, hs]
  · simp [runStatus, Json.dictGet, h]
  · simp [runStatus, Json.dictGet, hnull]

/-- Instantiation of `falsy_fields_treated_as_missing`: an empty-string
recipient number draws the same error as an absent one. -/
theorem falsy_fields_treated_as_missing_witness :
    (Json.str "").falsy = true ∧
    runSend "key" "acct" none envOk
        (.ok (.obj [("fax_number", Json.str ""), ("subject", Json.str "S"),
          ("file_path", Json.str "/tmp/a.pdf")])) =
      ⟨"Error: Recipient fax number is required", none, []⟩ ∧
    runSend "key" "acct" none envOk
        (.ok (.obj [("subject", Json.str "S"), ("file_path", Json.str "/tmp/a.pdf")])) =
      ⟨"Error: Recipient fax number is required", none, []⟩ :=
  ⟨by decide,
   ((falsy_fields_treated_as_missing "key" "acct" none none envOk).1
      (Json.str "") (Json.str "S") (Json.str "/tmp/a.pdf") (by decide)).1,
   ((falsy_fields_treated_as_missing "key" "acct" none none envOk).1
      (Json.str "") (Json.str "S") (Json.str "/tmp/a.pdf") (by decide)).2⟩

/-- Any upload call in a Send invocation's trace carries the MIME type
computed by `get_mime_type` from the lowercased extension of the uploaded
file name. -/
theorem upload_mime_of_mem_calls (api_key account_id : String)
    (st : Option ApiClients) (env : Env) (input : Except Unit Json)
    (a : String) (c : List Nat) (fn mt : String)
    (hmem : Call.upload_file a c fn mt ∈
        (runSend api_key account_id st env input).calls) :
    mt = get_mime_type (lowerStr (splitext fn).2) := by
  rcases input with u | j
  · simp [runSend] at hmem
  · cases j with
    | obj kvs =>
        by_cases h1 : (Json.dictGet kvs "fax_number").falsy = true
        · simp [runSend, h1] at hmem
        · by_cases h2 : (Json.dictGet kvs "subject").falsy = true
          · simp [runSend, h1, h2] at hmem
          · by_cases h3 : (Json.dictGet kvs "file_path").falsy = true
            · simp [runSend, h1, h2, h3] at hmem
            · cases hfp : Json.dictGet kvs "file_path" with
              | str p =>
                  rw [hfp] at h3
                  by_cases hex : env.path_exists p = false
                  · simp [runSend, h1, h2, h3, hfp, hex] at hmem
                  · cases hrd : env.read_bytes p with
                    | error e =>
                        simp [runSend, h1, h2, h3, hfp, hex, hrd] at hmem
                    | ok content =>
                        cases hup : env.upload_file account_id content
                            (basename p)
                            (get_mime_type (lowerStr (splitext (basename p)).2)) with
                        | error e =>
                            simp [runSend, h1, h2, h3, hfp, hex, hrd, hup] at hmem
                            obtain ⟨-, -, hfn, hmt⟩ := hmem
                            subst hfn
                            exact hmt
                        | ok uf =>
                            cases hsf : env.send_fax account_id
                                (Json.dictGet kvs "fax_number")
                                (Json.dictGet kvs "subject")
                                (Json.dictGetD kvs "comment" (Json.str ""))
                                uf.id with
                            | error e =>
                                simp [runSend, h1, h2, h3, hfp, hex, hrd, hup,
                                  hsf] at hmem
                                obtain ⟨-, -, hfn, hmt⟩ := hmem
                                subst hfn
                                exact hmt
                            | ok fr =>
                                simp [runSend, h1, h2, h3, hfp, hex, hrd, hup,
                                  hsf] at hmem
                                obtain ⟨-, -, hfn, hmt⟩ := hmem
                                subst hfn
                                exact hmt
              | null =>
                  rw [hfp] at h3
                  simp [Json.falsy] at h3
              | bool b =>
                  rw [hfp] at h3
                  by_cases hfd : env.fd_exists 1 = false
                  · simp [runSend, h1, h2, h3, hfp, hfd] at hmem
                  · cases hrd : env.read_fd 1 with
                    | error e =>
                        simp [runSend, h1, h2, h3, hfp, hfd, hrd] at hmem
                    | ok u =>
                        simp [runSend, h1, h2, h3, hfp, hfd, hrd] at hmem
              | num n =>
                  rw [hfp] at h3
                  by_cases hfd : env.fd_exists n = false
                  · simp [runSend, h1, h2, h3, hfp, hfd] at hmem
                  · cases hrd : env.read_fd n with
                    | error e =>
                        simp [runSend, h1, h2, h3, hfp, hfd, hrd] at hmem
                    | ok u =>
                        simp [runSend, h1, h2, h3, hfp, hfd, hrd] at hmem
              | arr l =>
                  simp [runSend, h1, h2, h3, hfp, apply_ite SendOutcome.calls]
                    at hmem
              | obj o =>
                  simp [runSend, h1, h2, h3, hfp, apply_ite SendOutcome.calls]
                    at hmem
    | null => simp [runSend] at hmem
    | bool b => simp [runSend] at hmem
    | num n => simp [runSend] at hmem
    | str s => simp [runSend] at hmem
    | arr l => simp [runSend] at hmem

/-- Claim C4: the MIME type passed to the upload is determined solely by the
lowercase file extension through the fixed table (pdf, tiff/tif, jpg/jpeg,
png, doc, docx, txt), every other extension mapping to
application/octet-stream. -/
theorem send_upload_mime_from_table (api_key account_id : String)
    (st : Option ApiClients) (env : Env) (input : Except Unit Json) :
    (∀ a c fn mt, Call.upload_file a c fn mt ∈
        (runSend api_key account_id st env input).calls →
      mt = get_mime_type (lowerStr (splitext fn).2)) ∧
    (get_mime_type ".pdf" = "application/pdf" ∧
     get_mime_type ".tiff" = "image/tiff" ∧
     get_mime_type ".tif" = "image/tiff" ∧
     get_mime_type ".jpg" = "image/jpeg" ∧
     get_mime_type ".jpeg" = "image/jpeg" ∧
     get_mime_type ".png" = "image/png" ∧
     get_mime_type ".doc" = "application/msword" ∧
     get_mime_type ".docx" =
       "application/vnd.openxmlformats-officedocument.wordprocessingml.document" ∧
     get_mime_type ".txt" = "text/plain") ∧
    (∀ e : String, e ∉ mime_types.map Prod.fst →
      get_mime_type e = "application/octet-stream") := by
  refine ⟨fun a c fn mt hmem =>
      upload_mime_of_mem_calls api_key account_id st env input a c fn mt hmem,
    ⟨rfl, rfl, rfl, rfl, rfl, rfl, rfl, rfl, rfl⟩, fun e he => ?_⟩
  unfold get_mime_type
  cases hf : mime_types.find? (fun q => q.1 == e) with
  | none => rfl
  | some q =>
      exfalso
      apply he
      have hq := List.find?_some hf
      have hqm := List.mem_of_find?_eq_some hf
      exact List.mem_map.mpr ⟨q, hqm, by simpa using hq⟩

/-- Instantiation of `send_upload_mime_from_table`: sending the file
"/tmp/doc.PDF" uploads with MIME type application/pdf, and the unknown
extension ".xyz" falls back to application/octet-stream. -/
theorem send_upload_mime_from_table_witness :
    Call.upload_file "acct" [37, 80, 68, 70] "doc.PDF" "application/pdf" ∈
      (runSend "key" "acct" none envOk
        (.ok (.obj [("fax_number", Json.str "+1"), ("subject", Json.str "S"),
          ("file_path", Json.str "/tmp/doc.PDF")]))).calls ∧
    "application/pdf" = get_mime_type (lowerStr (splitext "doc.PDF").2) ∧
    ".xyz" ∉ mime_types.map Prod.fst ∧
    get_mime_type ".xyz" = "application/octet-stream" := by
  have hmem : Call.upload_file "acct" [37, 80, 68, 70] "doc.PDF" "application/pdf" ∈
      (runSend "key" "acct" none envOk
        (.ok (.obj [("fax_number", Json.str "+1"), ("subject", Json.str "S"),
          ("file_path", Json.str "/tmp/doc.PDF")]))).calls := by
    rw [show (runSend "key" "acct" none envOk
        (.ok (.obj [("fax_number", Json.str "+1"), ("subject", Json.str "S"),
          ("file_path", Json.str "/tmp/doc.PDF")]))).calls =
      [Call.upload_file "acct" [37, 80, 68, 70] "doc.PDF" "application/pdf",
       Call.send_fax "acct" (Json.str "+1") (Json.str "S") (Json.str "")
         "file-1"] from rfl]
    exact List.mem_cons_self _ _
  exact ⟨hmem,
    (send_upload_mime_from_table "key" "acct" none envOk
        (.ok (.obj [("fax_number", Json.str "+1"), ("subject", Json.str "S"),
          ("file_path", Json.str "/tmp/doc.PDF")]))).1 _ _ _ _ hmem,
    by decide,
    (send_upload_mime_from_table "key" "acct" none envOk
        (.ok (.obj [("fax_number", Json.str "+1"), ("subject", Json.str "S"),
          ("file_path", Json.str "/tmp/doc.PDF")]))).2.2 ".xyz" (by decide)⟩

/-- Claim C5: with all required fields truthy and the file present, when the
remote service accepts both the upload and the submission the Send handler
returns exactly "Fax successfully queued. Fax ID: " followed by the id the
remote service produced, so the output contains the literal substring
"Fax ID: " followed by that id. -/
theorem send_success_fax_id (api_key account_id : String)
    (st : Option ApiClients) (env : Env) (kvs : List (String × Json))
    (p : String) (content : List Nat) (uf : UploadedFile) (fr : FaxResult)
    (h1 : (Json.dictGet kvs "fax_number").falsy = false)
    (h2 : (Json.dictGet kvs "subject").falsy = false)
    (h3 : Json.dictGet kvs "file_path" = .str p)
    (hp : p ≠ "")
    (hex : env.path_exists p = true)
    (hrd : env.read_bytes p = .ok content)
    (hup : env.upload_file account_id content (basename p)
        (get_mime_type (lowerStr (splitext (basename p)).2)) = .ok uf)
    (hsf : env.send_fax account_id (Json.dictGet kvs "fax_number")
        (Json.dictGet kvs "subject") (Json.dictGetD kvs "comment" (Json.str ""))
        uf.id = .ok fr) :
    (runSend api_key account_id st env (.ok (.obj kvs))).result =
      "Fax successfully queued. Fax ID: " ++ fr.id ∧
    (∃ pre, (runSend api_key account_id st env (.ok (.obj kvs))).result =
      pre ++ "Fax ID: " ++ fr.id) := by
  have hfp : (Json.str p).falsy = false := by simp [Json.falsy, hp]
  have hres : (runSend api_key account_id st env (.ok (.obj kvs))).result =
      "Fax successfully queued. Fax ID: " ++ fr.id := by
    simp [runSend, h1, h2, h3, hfp, hex, hrd, hup, hsf]
  exact ⟨hres, ⟨"Fax successfully queued. ", hres⟩⟩

/-- Instantiation of `send_success_fax_id` on `envOk`: the handler reports
the fax id `fax-1` the service produced. -/
theorem send_success_fax_id_witness :
    envOk.path_exists "/tmp/doc.pdf" = true ∧
    (runSend "key" "acct" none envOk
        (.ok (.obj [("fax_number", Json.str "+1"), ("subject", Json.str "S"),
          ("file_path", Json.str "/tmp/doc.pdf")]))).result =
      "Fax successfully queued. Fax ID: fax-1" :=
  ⟨rfl,
   (send_success_fax_id "key" "acct" none envOk
      [("fax_number", Json.str "+1"), ("subject", Json.str "S"),
       ("file_path", Json.str "/tmp/doc.pdf")] "/tmp/doc.pdf"
      [37, 80, 68, 70] ⟨"file-1"⟩ ⟨"fax-1"⟩ (by decide) (by decide) rfl
      (by decide) rfl rfl rfl rfl).1⟩

/-- Claim C6: when the fax id is present and the remote lookup succeeds, the
Status handler's output is the indent-2 serialized key/value block over
exactly the six fields fax_id, status, completed, cost, pagecount and
created_at, the fax id being the one from the request (which identifies the
record) and the other five values verbatim from the remote record; the only
remote call made is the status lookup. -/
theorem status_success_block (api_key account_id : String)
    (st : Option Client) (env : Env) (kvs : List (String × Json)) (r : FaxRecord)
    (h1 : (Json.dictGet kvs "fax_id").falsy = false)
    (h2 : env.get_outbox_fax account_id (Json.dictGet kvs "fax_id") = .ok r) :
    (runStatus api_key account_id st env (.ok (.obj kvs))).result =
      Json.dumps2 (.obj (statusInfo (Json.dictGet kvs "fax_id") r)) ∧
    (statusInfo (Json.dictGet kvs "fax_id") r).map Prod.fst =
      ["fax_id", "status", "completed", "cost", "pagecount", "created_at"] ∧
    (statusInfo (Json.dictGet kvs "fax_id") r).map Prod.snd =
      [Json.dictGet kvs "fax_id", r.status, r.completed, r.cost, r.pagecount,
       r.created_at] ∧
    (runStatus api_key account_id st env (.ok (.obj kvs))).calls =
      [Call.get_outbox_fax account_id (Json.dictGet kvs "fax_id")] := by
  refine ⟨?_, rfl, rfl, ?_⟩ <;> simp [runStatus, h1, h2]

/-- Instantiation of `status_success_block` on `envOk`: the output is the
pretty-printed block over the six fields of the fixed record. -/
theorem status_success_block_witness :
    envOk.get_outbox_fax "acct" (Json.str "f1") =
      .ok ⟨.str "success", .null, .num 1, .num 2, .str "2023-01-01T12:00:00Z"⟩ ∧
    (runStatus "key" "acct" none envOk
        (.ok (.obj [("fax_id", Json.str "f1")]))).result =
      Json.dumps2 (.obj (statusInfo (Json.str "f1")
        ⟨.str "success", .null, .num 1, .num 2, .str "2023-01-01T12:00:00Z"⟩)) :=
  ⟨rfl,
   (status_success_block "key" "acct" none envOk [("fax_id", Json.str "f1")]
      ⟨.str "success", .null, .num 1, .num 2, .str "2023-01-01T12:00:00Z"⟩
      (by decide) rfl).1⟩

/-- Claim C7: the History handler accepts an optional limit, queries the
remote client for up to limit records, and emits one line per record
carrying its id, status, recipient and date. -/
theorem history_handler_lines (env : HistEnv) (limit : Option Nat) :
    runHistory env limit =
      String.intercalate "\n" ((env.get_fax_list limit).map histLine) ∧
    (∀ r : HistRecord, histLine r =
      r.id ++ " | " ++ r.status ++ " | " ++ r.recipient ++ " | " ++ r.date) ∧
    (∀ n, (env.get_fax_list (some n)).length ≤ n) ∧
    ((env.get_fax_list limit).map histLine).length =
      (env.get_fax_list limit).length :=
  ⟨rfl, fun _ => rfl, env.le_limit, List.length_map _ _⟩

/-- After any Send invocation, exactly one of three things happened: the
client attributes are untouched and no remote call was made (the invocation
ended in parsing, validation or the existence check); or they hold the
clients built from the configured key while no remote call was made (the
invocation entered the remote step — `_init_client` runs before `open` —
but the local file read failed, or a descriptor path hit the `basename`
`TypeError`); or they hold those clients and at least one remote call was
made. -/
theorem runSend_state_calls (api_key account_id : String)
    (st : Option ApiClients) (env : Env) (input : Except Unit Json) :
    ((runSend api_key account_id st env input).state = st ∧
      (runSend api_key account_id st env input).calls = []) ∨
    ((runSend api_key account_id st env input).state =
        some (st.getD (initApiClients api_key)) ∧
      (runSend api_key account_id st env input).calls = []) ∨
    ((runSend api_key account_id st env input).state =
        some (st.getD (initApiClients api_key)) ∧
      (runSend api_key account_id st env input).calls ≠ []) := by
  rcases input with u | j
  · exact Or.inl ⟨rfl, rfl⟩
  · cases j with
    | obj kvs =>
        by_cases h1 : (Json.dictGet kvs "fax_number").falsy = true
        · left
          constructor <;> simp [runSend, h1]
        · by_cases h2 : (Json.dictGet kvs "subject").falsy = true
          · left
            constructor <;> simp [runSend, h1, h2]
          · by_cases h3 : (Json.dictGet kvs "file_path").falsy = true
            · left
              constructor <;> simp [runSend, h1, h2, h3]
            · cases hfp : Json.dictGet kvs "file_path" with
              | str p =>
                  rw [hfp] at h3
                  by_cases hex : env.path_exists p = false
                  · left
                    constructor <;> simp [runSend, h1, h2, h3, hfp, hex]
                  · cases hrd : env.read_bytes p with
                    | error e =>
                        right
                        left
                        constructor <;>
                          simp [runSend, h1, h2, h3, hfp, hex, hrd]
                    | ok content =>
                        cases hup : env.upload_file account_id content
                            (basename p)
                            (get_mime_type (lowerStr (splitext (basename p)).2)) with
                        | error e =>
                            right
                            right
                            constructor <;>
                              simp [runSend, h1, h2, h3, hfp, hex, hrd, hup]
                        | ok uf =>
                            cases hsf : env.send_fax account_id
                                (Json.dictGet kvs "fax_number")
                                (Json.dictGet kvs "subject")
                                (Json.dictGetD kvs "comment" (Json.str ""))
                                uf.id with
                            | error e =>
                                right
                                right
                                constructor <;>
                                  simp [runSend, h1, h2, h3, hfp, hex, hrd,
                                    hup, hsf]
                            | ok fr =>
                                right
                                right
                                constructor <;>
                                  simp [runSend, h1, h2, h3, hfp, hex, hrd,
                                    hup, hsf]
              | null =>
                  rw [hfp] at h3
                  simp [Json.falsy] at h3
              | bool b =>
                  rw [hfp] at h3
                  by_cases hfd : env.fd_exists 1 = false
                  · left
                    constructor <;> simp [runSend, h1, h2, h3, hfp, hfd]
                  · cases hrd : env.read_fd 1 with
                    | error e =>
                        right
                        left
                        constructor <;>
                          simp [runSend, h1, h2, h3, hfp, hfd, hrd]
                    | ok u =>
                        right
                        left
                        constructor <;>
                          simp [runSend, h1, h2, h3, hfp, hfd, hrd]
              | num n =>
                  rw [hfp] at h3
                  by_cases hfd : env.fd_exists n = false
                  · left
                    constructor <;> simp [runSend, h1, h2, h3, hfp, hfd]
                  · cases hrd : env.read_fd n with
                    | error e =>
                        right
                        left
                        constructor <;>
                          simp [runSend, h1, h2, h3, hfp, hfd, hrd]
                    | ok u =>
                        right
                        left
                        constructor <;>
                          simp [runSend, h1, h2, h3, hfp, hfd, hrd]
              | arr l =>
                  rw [hfp] at h3
                  left
                  constructor <;>
                    simp [runSend, h1, h2, h3, hfp,
                      apply_ite SendOutcome.state, apply_ite SendOutcome.calls]
              | obj o =>
                  rw [hfp] at h3
                  left
                  constructor <;>
                    simp [runSend, h1, h2, h3, hfp,
                      apply_ite SendOutcome.state, apply_ite SendOutcome.calls]
    | null => exact Or.inl ⟨rfl, rfl⟩
    | bool b => exact Or.inl ⟨rfl, rfl⟩
    | num n => exact Or.inl ⟨rfl, rfl⟩
    | str s => exact Or.inl ⟨rfl, rfl⟩
    | arr l => exact Or.inl ⟨rfl, rfl⟩

/-- After any Status invocation, either the client attribute is untouched
and no remote call was made, or it holds the outbox client built from the
configured key and the lookup call was made. -/
theorem runStatus_state_calls (api_key account_id : String)
    (st : Option Client) (env : Env) (input : Except Unit Json) :
    ((runStatus api_key account_id st env input).state = st ∧
      (runStatus api_key account_id st env input).calls = []) ∨
    ((runStatus api_key account_id st env input).state =
        some (st.getD (initOutboxClient api_key)) ∧
      (runStatus api_key account_id st env input).calls ≠ []) := by
  rcases input with u | j
  · exact Or.inl ⟨rfl, rfl⟩
  · cases j with
    | obj kvs =>
        by_cases h1 : (Json.dictGet kvs "fax_id").falsy = true
        · left
          constructor <;> simp [runStatus, h1]
        · cases hgf : env.get_outbox_fax account_id (Json.dictGet kvs "fax_id") with
          | error e =>
              right
              constructor <;> simp [runStatus, h1, hgf]
          | ok r =>
              right
              constructor <;> simp [runStatus, h1, hgf]
    | null => exact Or.inl ⟨rfl, rfl⟩
    | bool b => exact Or.inl ⟨rfl, rfl⟩
    | num n => exact Or.inl ⟨rfl, rfl⟩
    | str s => exact Or.inl ⟨rfl, rfl⟩
    | arr l => exact Or.inl ⟨rfl, rfl⟩

/-- The client attributes of a Send-tool instance after a sequence of
invocations, each with its own environment and parsed input. -/
def sendClientSeq (api_key account_id : String) (st : Option ApiClients)
    (l : List (Env × Except Unit Json)) : Option ApiClients :=
  l.foldl (fun s q => (runSend api_key account_id s q.1 q.2).state) st

/-- The client attribute of a Status-tool instance after a sequence of
invocations. -/
def statusClientSeq (api_key account_id : String) (st : Option Client)
    (l : List (Env × Except Unit Json)) : Option Client :=
  l.foldl (fun s q => (runStatus api_key account_id s q.1 q.2).state) st

/-- A Send invocation never replaces an already-initialized client. -/
theorem runSend_state_some (api_key account_id : String) (c : ApiClients)
    (env : Env) (input : Except Unit Json) :
    (runSend api_key account_id (some c) env input).state = some c := by
  rcases runSend_state_calls api_key account_id (some c) env input with
    ⟨h, -⟩ | ⟨h, -⟩ | ⟨h, -⟩
  · exact h
  · simpa using h
  · simpa using h

/-- A Status invocation never replaces an already-initialized client. -/
theorem runStatus_state_some (api_key account_id : String) (c : Client)
    (env : Env) (input : Except Unit Json) :
    (runStatus api_key account_id (some c) env input).state = some c := by
  rcases runStatus_state_calls api_key account_id (some c) env input with
    ⟨h, -⟩ | ⟨h, -⟩
  · exact h
  · simpa using h

/-- Over any invocation sequence, an initialized Send client persists. -/
theorem sendClientSeq_some (api_key account_id : String) (c : ApiClients)
    (l : List (Env × Except Unit Json)) :
    sendClientSeq api_key account_id (some c) l = some c := by
  induction l with
  | nil => rfl
  | cons q l ih =>
      show sendClientSeq api_key account_id
        (runSend api_key account_id (some c) q.1 q.2).state l = some c
      rw [runSend_state_some]
      exact ih

/-- Over any invocation sequence, an initialized Status client persists. -/
theorem statusClientSeq_some (api_key account_id : String) (c : Client)
    (l : List (Env × Except Unit Json)) :
    statusClientSeq api_key account_id (some c) l = some c := by
  induction l with
  | nil => rfl
  | cons q l ih =>
      show statusClientSeq api_key account_id
        (runStatus api_key account_id (some c) q.1 q.2).state l = some c
      rw [runStatus_state_some]
      exact ih

/-- Starting uninitialized, a Send instance ends any invocation sequence
either still uninitialized or holding the clients built from its key. -/
theorem sendClientSeq_none (api_key account_id : String)
    (l : List (Env × Except Unit Json)) :
    sendClientSeq api_key account_id none l = none ∨
    sendClientSeq api_key account_id none l = some (initApiClients api_key) := by
  induction l with
  | nil => exact Or.inl rfl
  | cons q l ih =>
      show sendClientSeq api_key account_id
          (runSend api_key account_id none q.1 q.2).state l = none ∨
        sendClientSeq api_key account_id
          (runSend api_key account_id none q.1 q.2).state l =
          some (initApiClients api_key)
      rcases runSend_state_calls api_key account_id none q.1 q.2 with
        ⟨h, -⟩ | ⟨h, -⟩ | ⟨h, -⟩
      · rw [h]
        exact ih
      · rw [h]
        exact Or.inr (sendClientSeq_some api_key account_id _ l)
      · rw [h]
        exact Or.inr (sendClientSeq_some api_key account_id _ l)

/-- Starting uninitialized, a Status instance ends any invocation sequence
either still uninitialized or holding the outbox client built from its key. -/
theorem statusClientSeq_none (api_key account_id : String)
    (l : List (Env × Except Unit Json)) :
    statusClientSeq api_key account_id none l = none ∨
    statusClientSeq api_key account_id none l = some (initOutboxClient api_key) := by
  induction l with
  | nil => exact Or.inl rfl
  | cons q l ih =>
      show statusClientSeq api_key account_id
          (runStatus api_key account_id none q.1 q.2).state l = none ∨
        statusClientSeq api_key account_id
          (runStatus api_key account_id none q.1 q.2).state l =
          some (initOutboxClient api_key)
      rcases runStatus_state_calls api_key account_id none q.1 q.2 with
        ⟨h, -⟩ | ⟨h, -⟩
      · rw [h]
        exact ih
      · rw [h]
        exact Or.inr (statusClientSeq_some api_key account_id _ l)

/-- Claim C9: the remote client of each handler instance is initialized
lazily, on the first invocation that enters the remote step (in the source,
`_init_client` runs right after the existence check and before `open`, so a
local read failure can initialize the client while making no remote call; a
remote call is only ever made with the client initialized, and an
uninitialized instance has made no remote call), is write-once (an
initialized client is never reset or replaced, over any sequence of
invocations), and the client ever held is the one built from the configured
key. -/
theorem lazy_client_write_once (api_key account_id : String) :
    (∀ env input (c : ApiClients),
      (runSend api_key account_id (some c) env input).state = some c) ∧
    (∀ env input,
      (runSend api_key account_id none env input).state = none ∨
      (runSend api_key account_id none env input).state =
        some (initApiClients api_key)) ∧
    (∀ env input,
      (runSend api_key account_id none env input).state = none →
      (runSend api_key account_id none env input).calls = []) ∧
    (∀ l (c : ApiClients),
      sendClientSeq api_key account_id (some c) l = some c) ∧
    (∀ l, sendClientSeq api_key account_id none l = none ∨
      sendClientSeq api_key account_id none l = some (initApiClients api_key)) ∧
    (∀ env input (c : Client),
      (runStatus api_key account_id (some c) env input).state = some c) ∧
    (∀ env input,
      ((runStatus api_key account_id none env input).state = none ∧
        (runStatus api_key account_id none env input).calls = []) ∨
      ((runStatus api_key account_id none env input).state =
          some (initOutboxClient api_key) ∧
        (runStatus api_key account_id none env input).calls ≠ [])) ∧
    (∀ l (c : Client),
      statusClientSeq api_key account_id (some c) l = some c) ∧
    (∀ l, statusClientSeq api_key account_id none l = none ∨
      statusClientSeq api_key account_id none l = some (initOutboxClient api_key)) :=
  ⟨fun env input c => runSend_state_some api_key account_id c env input,
   fun env input => by
     rcases runSend_state_calls api_key account_id none env input with
       ⟨h, -⟩ | ⟨h, -⟩ | ⟨h, -⟩
     · exact Or.inl h
     · exact Or.inr (by simpa using h)
     · exact Or.inr (by simpa using h),
   fun env input hn => by
     rcases runSend_state_calls api_key account_id none env input with
       ⟨-, hc⟩ | ⟨-, hc⟩ | ⟨h, -⟩
     · exact hc
     · exact hc
     · rw [hn] at h
       simp at h,
   fun l c => sendClientSeq_some api_key account_id c l,
   fun l => sendClientSeq_none api_key account_id l,
   fun env input c => runStatus_state_some api_key account_id c env input,
   fun env input => runStatus_state_calls api_key account_id none env input,
   fun l c => statusClientSeq_some api_key account_id c l,
   fun l => statusClientSeq_none api_key account_id l⟩

/-- Exhaustive case list of the strings a Send invocation can return. -/
theorem runSend_result_cases (api_key account_id : String)
    (st : Option ApiClients) (env : Env) (input : Except Unit Json) :
    (runSend api_key account_id st env input).result =
      "Error: Invalid JSON input. Please provide a valid JSON object." ∨
    (runSend api_key account_id st env input).result =
      "Error: Recipient fax number is required" ∨
    (runSend api_key account_id st env input).result =
      "Error: Subject is required" ∨
    (runSend api_key account_id st env input).result =
      "Error: File path is required" ∨
    (∃ p, (runSend api_key account_id st env input).result =
      "Error: File not found at " ++ p) ∨
    (∃ m, (runSend api_key account_id st env input).result =
      "Error sending fax: " ++ m) ∨
    (∃ i, (runSend api_key account_id st env input).result =
      "Fax successfully queued. Fax ID: " ++ i) := by
  rcases input with u | j
  · exact Or.inl rfl
  · cases j with
    | obj kvs =>
        by_cases h1 : (Json.dictGet kvs "fax_number").falsy = true
        · refine Or.inr (Or.inl ?_)
          simp [runSend, h1]
        · by_cases h2 : (Json.dictGet kvs "subject").falsy = true
          · refine Or.inr (Or.inr (Or.inl ?_))
            simp [runSend, h1, h2]
          · by_cases h3 : (Json.dictGet kvs "file_path").falsy = true
            · refine Or.inr (Or.inr (Or.inr (Or.inl ?_)))
              simp [runSend, h1, h2, h3]
            · cases hfp : Json.dictGet kvs "file_path" with
              | str p =>
                  rw [hfp] at h3
                  by_cases hex : env.path_exists p = false
                  · refine Or.inr (Or.inr (Or.inr (Or.inr (Or.inl ⟨p, ?_⟩))))
                    simp [runSend, h1, h2, h3, hfp, hex]
                  · cases hrd : env.read_bytes p with
                    | error e =>
                        refine Or.inr (Or.inr (Or.inr (Or.inr (Or.inr
                          (Or.inl ⟨e.msg, ?_⟩)))))
                        simp [runSend, h1, h2, h3, hfp, hex, hrd]
                    | ok content =>
                        cases hup : env.upload_file account_id content
                            (basename p)
                            (get_mime_type (lowerStr (splitext (basename p)).2)) with
                        | error e =>
                            refine Or.inr (Or.inr (Or.inr (Or.inr (Or.inr
                              (Or.inl ⟨e.msg, ?_⟩)))))
                            simp [runSend, h1, h2, h3, hfp, hex, hrd, hup]
                        | ok uf =>
                            cases hsf : env.send_fax account_id
                                (Json.dictGet kvs "fax_number")
                                (Json.dictGet kvs "subject")
                                (Json.dictGetD kvs "comment" (Json.str ""))
                                uf.id with
                            | error e =>
                                refine Or.inr (Or.inr (Or.inr (Or.inr (Or.inr
                                  (Or.inl ⟨e.msg, ?_⟩)))))
                                simp [runSend, h1, h2, h3, hfp, hex, hrd, hup,
                                  hsf]
                            | ok fr =>
                                refine Or.inr (Or.inr (Or.inr (Or.inr (Or.inr
                                  (Or.inr ⟨fr.id, ?_⟩)))))
                                simp [runSend, h1, h2, h3, hfp, hex, hrd, hup,
                                  hsf]
              | null =>
                  rw [hfp] at h3
                  simp [Json.falsy] at h3
              | bool b =>
                  rw [hfp] at h3
                  by_cases hfd : env.fd_exists 1 = false
                  · refine Or.inr (Or.inr (Or.inr (Or.inr
                      (Or.inl ⟨"True", ?_⟩))))
                    simp [runSend, h1, h2, h3, hfp, hfd]
                  · cases hrd : env.read_fd 1 with
                    | error e =>
                        refine Or.inr (Or.inr (Or.inr (Or.inr (Or.inr
                          (Or.inl ⟨e.msg, ?_⟩)))))
                        simp [runSend, h1, h2, h3, hfp, hfd, hrd]
                    | ok u =>
                        refine Or.inr (Or.inr (Or.inr (Or.inr (Or.inr
                          (Or.inl ⟨basenameTypeErr (Json.bool b), ?_⟩)))))
                        simp [runSend, h1, h2, h3, hfp, hfd, hrd]
              | num n =>
                  rw [hfp] at h3
                  by_cases hfd : env.fd_exists n = false
                  · refine Or.inr (Or.inr (Or.inr (Or.inr
                      (Or.inl ⟨toString n, ?_⟩))))
                    simp [runSend, h1, h2, h3, hfp, hfd]
                  · cases hrd : env.read_fd n with
                    | error e =>
                        refine Or.inr (Or.inr (Or.inr (Or.inr (Or.inr
                          (Or.inl ⟨e.msg, ?_⟩)))))
                        simp [runSend, h1, h2, h3, hfp, hfd, hrd]
                    | ok u =>
                        refine Or.inr (Or.inr (Or.inr (Or.inr (Or.inr
                          (Or.inl ⟨basenameTypeErr (Json.num n), ?_⟩)))))
                        simp [runSend, h1, h2, h3, hfp, hfd, hrd]
              | arr l =>
                  rw [hfp] at h3
                  refine Or.inr (Or.inr (Or.inr (Or.inr (Or.inr
                    (Or.inl ⟨pathTypeErr (Json.arr l), ?_⟩)))))
                  simp [runSend, h1, h2, h3, hfp]
              | obj o =>
                  rw [hfp] at h3
                  refine Or.inr (Or.inr (Or.inr (Or.inr (Or.inr
                    (Or.inl ⟨pathTypeErr (Json.obj o), ?_⟩)))))
                  simp [runSend, h1, h2, h3, hfp]
    | null =>
        exact Or.inr (Or.inr (Or.inr (Or.inr (Or.inr (Or.inl
          ⟨Json.attrGetErr .null, rfl⟩)))))
    | bool b =>
        exact Or.inr (Or.inr (Or.inr (Or.inr (Or.inr (Or.inl
          ⟨Json.attrGetErr (.bool b), rfl⟩)))))
    | num n =>
        exact Or.inr (Or.inr (Or.inr (Or.inr (Or.inr (Or.inl
          ⟨Json.attrGetErr (.num n), rfl⟩)))))
    | str s =>
        exact Or.inr (Or.inr (Or.inr (Or.inr (Or.inr (Or.inl
          ⟨Json.attrGetErr (.str s), rfl⟩)))))
    | arr l =>
        exact Or.inr (Or.inr (Or.inr (Or.inr (Or.inr (Or.inl
          ⟨Json.attrGetErr (.arr l), rfl⟩)))))

/-- Exhaustive case list of the strings a Status invocation can return. -/
theorem runStatus_result_cases (api_key account_id : String)
    (st : Option Client) (env : Env) (input : Except Unit Json) :
    (runStatus api_key account_id st env input).result =
      "Error: Invalid JSON input. Please provide a valid JSON object." ∨
    (runStatus api_key account_id st env input).result =
      "Error: Fax ID is required" ∨
    (∃ m, (runStatus api_key account_id st env input).result =
      "Error checking fax status: " ++ m) ∨
    (∃ fid r, (runStatus api_key account_id st env input).result =
      Json.dumps2 (.obj (statusInfo fid r))) := by
  rcases input with u | j
  · exact Or.inl rfl
  · cases j with
    | obj kvs =>
        by_cases h1 : (Json.dictGet kvs "fax_id").falsy = true
        · refine Or.inr (Or.inl ?_)
          simp [runStatus, h1]
        · cases hgf : env.get_outbox_fax account_id
              (Json.dictGet kvs "fax_id") with
          | error e =>
              refine Or.inr (Or.inr (Or.inl ⟨e.msg, ?_⟩))
              simp [runStatus, h1, hgf]
          | ok r =>
              refine Or.inr (Or.inr (Or.inr
                ⟨Json.dictGet kvs "fax_id", r, ?_⟩))
              simp [runStatus, h1, hgf]
    | null =>
        exact Or.inr (Or.inr (Or.inl ⟨Json.attrGetErr .null, rfl⟩))
    | bool b =>
        exact Or.inr (Or.inr (Or.inl ⟨Json.attrGetErr (.bool b), rfl⟩))
    | num n =>
        exact Or.inr (Or.inr (Or.inl ⟨Json.attrGetErr (.num n), rfl⟩))
    | str s =>
        exact Or.inr (Or.inr (Or.inl ⟨Json.attrGetErr (.str s), rfl⟩))
    | arr l =>
        exact Or.inr (Or.inr (Or.inl ⟨Json.attrGetErr (.arr l), rfl⟩))

/-- If a Send invocation's trace contains an upload call whose arguments the
remote service answers with a failure, the invocation returns the formatted
failure description. -/
theorem runSend_upload_failure (api_key account_id : String)
    (st : Option ApiClients) (env : Env) (input : Except Unit Json)
    (a : String) (c : List Nat) (f t : String) (e : RemoteErr)
    (hmem : Call.upload_file a c f t ∈
        (runSend api_key account_id st env input).calls)
    (herr : env.upload_file a c f t = .error e) :
    (runSend api_key account_id st env input).result =
      "Error sending fax: " ++ e.msg := by
  rcases input with u | j
  · simp [runSend] at hmem
  · cases j with
    | obj kvs =>
        by_cases h1 : (Json.dictGet kvs "fax_number").falsy = true
        · simp [runSend, h1] at hmem
        · by_cases h2 : (Json.dictGet kvs "subject").falsy = true
          · simp [runSend, h1, h2] at hmem
          · by_cases h3 : (Json.dictGet kvs "file_path").falsy = true
            · simp [runSend, h1, h2, h3] at hmem
            · cases hfp : Json.dictGet kvs "file_path" with
              | str p =>
                  rw [hfp] at h3
                  by_cases hex : env.path_exists p = false
                  · simp [runSend, h1, h2, h3, hfp, hex] at hmem
                  · cases hrd : env.read_bytes p with
                    | error e1 =>
                        simp [runSend, h1, h2, h3, hfp, hex, hrd] at hmem
                    | ok content =>
                        cases hup : env.upload_file account_id content
                            (basename p)
                            (get_mime_type (lowerStr (splitext (basename p)).2)) with
                        | error e0 =>
                            simp [runSend, h1, h2, h3, hfp, hex, hrd, hup]
                              at hmem ⊢
                            obtain ⟨ha, hc, hf, ht⟩ := hmem
                            subst ha
                            subst hc
                            subst hf
                            subst ht
                            rw [herr] at hup
                            simp only [Except.error.injEq] at hup
                            rw [hup]
                        | ok uf =>
                            cases hsf : env.send_fax account_id
                                (Json.dictGet kvs "fax_number")
                                (Json.dictGet kvs "subject")
                                (Json.dictGetD kvs "comment" (Json.str ""))
                                uf.id with
                            | error e0 =>
                                simp [runSend, h1, h2, h3, hfp, hex, hrd, hup,
                                  hsf] at hmem
                                obtain ⟨ha, hc, hf, ht⟩ := hmem
                                subst ha
                                subst hc
                                subst hf
                                subst ht
                                rw [herr] at hup
                                simp at hup
                            | ok fr =>
                                simp [runSend, h1, h2, h3, hfp, hex, hrd, hup,
                                  hsf] at hmem
                                obtain ⟨ha, hc, hf, ht⟩ := hmem
                                subst ha
                                subst hc
                                subst hf
                                subst ht
                                rw [herr] at hup
                                simp at hup
              | null =>
                  rw [hfp] at h3
                  simp [Json.falsy] at h3
              | bool b =>
                  rw [hfp] at h3
                  by_cases hfd : env.fd_exists 1 = false
                  · simp [runSend, h1, h2, h3, hfp, hfd] at hmem
                  · cases hrd : env.read_fd 1 with
                    | error e1 =>
                        simp [runSend, h1, h2, h3, hfp, hfd, hrd] at hmem
                    | ok u =>
                        simp [runSend, h1, h2, h3, hfp, hfd, hrd] at hmem
              | num n =>
                  rw [hfp] at h3
                  by_cases hfd : env.fd_exists n = false
                  · simp [runSend, h1, h2, h3, hfp, hfd] at hmem
                  · cases hrd : env.read_fd n with
                    | error e1 =>
                        simp [runSend, h1, h2, h3, hfp, hfd, hrd] at hmem
                    | ok u =>
                        simp [runSend, h1, h2, h3, hfp, hfd, hrd] at hmem
              | arr l =>
                  simp [runSend, h1, h2, h3, hfp, apply_ite SendOutcome.calls]
                    at hmem
              | obj o =>
                  simp [runSend, h1, h2, h3, hfp, apply_ite SendOutcome.calls]
                    at hmem
    | null => simp [runSend] at hmem
    | bool b => simp [runSend] at hmem
    | num n => simp [runSend] at hmem
    | str s => simp [runSend] at hmem
    | arr l => simp [runSend] at hmem

/-- If a Send invocation's trace contains a fax-submission call whose
arguments the remote service answers with a failure, the invocation returns
the formatted failure description. -/
theorem runSend_sendfax_failure (api_key account_id : String)
    (st : Option ApiClients) (env : Env) (input : Except Unit Json)
    (a : String) (x y z : Json) (i : String) (e : RemoteErr)
    (hmem : Call.send_fax a x y z i ∈
        (runSend api_key account_id st env input).calls)
    (herr : env.send_fax a x y z i = .error e) :
    (runSend api_key account_id st env input).result =
      "Error sending fax: " ++ e.msg := by
  rcases input with u | j
  · simp [runSend] at hmem
  · cases j with
    | obj kvs =>
        by_cases h1 : (Json.dictGet kvs "fax_number").falsy = true
        · simp [runSend, h1] at hmem
        · by_cases h2 : (Json.dictGet kvs "subject").falsy = true
          · simp [runSend, h1, h2] at hmem
          · by_cases h3 : (Json.dictGet kvs "file_path").falsy = true
            · simp [runSend, h1, h2, h3] at hmem
            · cases hfp : Json.dictGet kvs "file_path" with
              | str p =>
                  rw [hfp] at h3
                  by_cases hex : env.path_exists p = false
                  · simp [runSend, h1, h2, h3, hfp, hex] at hmem
                  · cases hrd : env.read_bytes p with
                    | error e1 =>
                        simp [runSend, h1, h2, h3, hfp, hex, hrd] at hmem
                    | ok content =>
                        cases hup : env.upload_file account_id content
                            (basename p)
                            (get_mime_type (lowerStr (splitext (basename p)).2)) with
                        | error e0 =>
                            simp [runSend, h1, h2, h3, hfp, hex, hrd, hup]
                              at hmem
                        | ok uf =>
                            cases hsf : env.send_fax account_id
                                (Json.dictGet kvs "fax_number")
                                (Json.dictGet kvs "subject")
                                (Json.dictGetD kvs "comment" (Json.str ""))
                                uf.id with
                            | error e0 =>
                                simp [runSend, h1, h2, h3, hfp, hex, hrd, hup,
                                  hsf] at hmem ⊢
                                obtain ⟨ha, hx, hy, hz, hi⟩ := hmem
                                subst ha
                                subst hx
                                subst hy
                                subst hz
                                subst hi
                                rw [herr] at hsf
                                simp only [Except.error.injEq] at hsf
                                rw [hsf]
                            | ok fr =>
                                simp [runSend, h1, h2, h3, hfp, hex, hrd, hup,
                                  hsf] at hmem
                                obtain ⟨ha, hx, hy, hz, hi⟩ := hmem
                                subst ha
                                subst hx
                                subst hy
                                subst hz
                                subst hi
                                rw [herr] at hsf
                                simp at hsf
              | null =>
                  rw [hfp] at h3
                  simp [Json.falsy] at h3
              | bool b =>
                  rw [hfp] at h3
                  by_cases hfd : env.fd_exists 1 = false
                  · simp [runSend, h1, h2, h3, hfp, hfd] at hmem
                  · cases hrd : env.read_fd 1 with
                    | error e1 =>
                        simp [runSend, h1, h2, h3, hfp, hfd, hrd] at hmem
                    | ok u =>
                        simp [runSend, h1, h2, h3, hfp, hfd, hrd] at hmem
              | num n =>
                  rw [hfp] at h3
                  by_cases hfd : env.fd_exists n = false
                  · simp [runSend, h1, h2, h3, hfp, hfd] at hmem
                  · cases hrd : env.read_fd n with
                    | error e1 =>
                        simp [runSend, h1, h2, h3, hfp, hfd, hrd] at hmem
                    | ok u =>
                        simp [runSend, h1, h2, h3, hfp, hfd, hrd] at hmem
              | arr l =>
                  simp [runSend, h1, h2, h3, hfp, apply_ite SendOutcome.calls]
                    at hmem
              | obj o =>
                  simp [runSend, h1, h2, h3, hfp, apply_ite SendOutcome.calls]
                    at hmem
    | null => simp [runSend] at hmem
    | bool b => simp [runSend] at hmem
    | num n => simp [runSend] at hmem
    | str s => simp [runSend] at hmem
    | arr l => simp [runSend] at hmem

/-- A local open/read failure inside the handler's `try` — after the
existence check, hence after client initialization — is caught and returned
as the formatted failure description, with no remote call made. -/
theorem runSend_read_failure (api_key account_id : String)
    (st : Option ApiClients) (env : Env) (kvs : List (String × Json))
    (p : String) (e : PyErr)
    (h1 : (Json.dictGet kvs "fax_number").falsy = false)
    (h2 : (Json.dictGet kvs "subject").falsy = false)
    (h3 : Json.dictGet kvs "file_path" = .str p)
    (hp : p ≠ "")
    (hex : env.path_exists p = true)
    (hrd : env.read_bytes p = .error e) :
    (runSend api_key account_id st env (.ok (.obj kvs))).result =
      "Error sending fax: " ++ e.msg ∧
    (runSend api_key account_id st env (.ok (.obj kvs))).calls = [] ∧
    (runSend api_key account_id st env (.ok (.obj kvs))).state =
      some (st.getD (initApiClients api_key)) := by
  have hfp : (Json.str p).falsy = false := by simp [Json.falsy, hp]
  refine ⟨?_, ?_, ?_⟩ <;> simp [runSend, h1, h2, h3, hfp, hex, hrd]

/-- If a Status invocation's trace contains a lookup call whose arguments
the remote service answers with a failure, the invocation returns the
formatted failure description. -/
theorem runStatus_lookup_failure (api_key account_id : String)
    (st : Option Client) (env : Env) (input : Except Unit Json)
    (a : String) (f : Json) (e : RemoteErr)
    (hmem : Call.get_outbox_fax a f ∈
        (runStatus api_key account_id st env input).calls)
    (herr : env.get_outbox_fax a f = .error e) :
    (runStatus api_key account_id st env input).result =
      "Error checking fax status: " ++ e.msg := by
  rcases input with u | j
  · simp [runStatus] at hmem
  · cases j with
    | obj kvs =>
        by_cases h1 : (Json.dictGet kvs "fax_id").falsy = true
        · simp [runStatus, h1] at hmem
        · cases hgf : env.get_outbox_fax account_id
              (Json.dictGet kvs "fax_id") with
          | error e0 =>
              simp [runStatus, h1, hgf] at hmem ⊢
              obtain ⟨ha, hf⟩ := hmem
              subst ha
              subst hf
              rw [herr] at hgf
              simp only [Except.error.injEq] at hgf
              rw [hgf]
          | ok r =>
              simp [runStatus, h1, hgf] at hmem
              obtain ⟨ha, hf⟩ := hmem
              subst ha
              subst hf
              rw [herr] at hgf
              simp at hgf
    | null => simp [runStatus] at hmem
    | bool b => simp [runStatus] at hmem
    | num n => simp [runStatus] at hmem
    | str s => simp [runStatus] at hmem
    | arr l => simp [runStatus] at hmem

/-- Claim C2: every Send or Status invocation returns exactly one result
string drawn from the handler's fixed repertoire — no fault escapes the
handler — and any failure other than JSON-parse failure or field validation
is caught and formatted with the underlying failure's description: a failing
upload or fax submission the invocation actually performed, a local file
open/read failure inside the `try`, and a failing status lookup each yield
"Error sending fax: " respectively "Error checking fax status: " followed by
that failure's description. -/
theorem handlers_contain_faults (api_key account_id : String)
    (stS : Option ApiClients) (stT : Option Client) (env : Env)
    (input : Except Unit Json) :
    ((runSend api_key account_id stS env input).result =
        "Error: Invalid JSON input. Please provide a valid JSON object." ∨
     (runSend api_key account_id stS env input).result =
        "Error: Recipient fax number is required" ∨
     (runSend api_key account_id stS env input).result =
        "Error: Subject is required" ∨
     (runSend api_key account_id stS env input).result =
        "Error: File path is required" ∨
     (∃ p, (runSend api_key account_id stS env input).result =
        "Error: File not found at " ++ p) ∨
     (∃ m, (runSend api_key account_id stS env input).result =
        "Error sending fax: " ++ m) ∨
     (∃ i, (runSend api_key account_id stS env input).result =
        "Fax successfully queued. Fax ID: " ++ i)) ∧
    ((runStatus api_key account_id stT env input).result =
        "Error: Invalid JSON input. Please provide a valid JSON object." ∨
     (runStatus api_key account_id stT env input).result =
        "Error: Fax ID is required" ∨
     (∃ m, (runStatus api_key account_id stT env input).result =
        "Error checking fax status: " ++ m) ∨
     (∃ fid r, (runStatus api_key account_id stT env input).result =
        Json.dumps2 (.obj (statusInfo fid r)))) ∧
    (∀ a c f t (e : RemoteErr),
      Call.upload_file a c f t ∈
        (runSend api_key account_id stS env input).calls →
      env.upload_file a c f t = .error e →
      (runSend api_key account_id stS env input).result =
        "Error sending fax: " ++ e.msg) ∧
    (∀ a x y z i (e : RemoteErr),
      Call.send_fax a x y z i ∈
        (runSend api_key account_id stS env input).calls →
      env.send_fax a x y z i = .error e →
      (runSend api_key account_id stS env input).result =
        "Error sending fax: " ++ e.msg) ∧
    (∀ kvs p (e : PyErr),
      input = .ok (.obj kvs) →
      (Json.dictGet kvs "fax_number").falsy = false →
      (Json.dictGet kvs "subject").falsy = false →
      Json.dictGet kvs "file_path" = .str p →
      p ≠ "" →
      env.path_exists p = true →
      env.read_bytes p = .error e →
      (runSend api_key account_id stS env input).result =
        "Error sending fax: " ++ e.msg ∧
      (runSend api_key account_id stS env input).calls = []) ∧
    (∀ a f (e : RemoteErr),
      Call.get_outbox_fax a f ∈
        (runStatus api_key account_id stT env input).calls →
      env.get_outbox_fax a f = .error e →
      (runStatus api_key account_id stT env input).result =
        "Error checking fax status: " ++ e.msg) :=
  ⟨runSend_result_cases api_key account_id stS env input,
   runStatus_result_cases api_key account_id stT env input,
   fun a c f t e hmem herr =>
     runSend_upload_failure api_key account_id stS env input a c f t e hmem herr,
   fun a x y z i e hmem herr =>
     runSend_sendfax_failure api_key account_id stS env input a x y z i e hmem
       herr,
   fun kvs p e hin h1 h2 h3 hp hex hrd => by
     subst hin
     exact ⟨(runSend_read_failure api_key account_id stS env kvs p e h1 h2 h3
        hp hex hrd).1,
       (runSend_read_failure api_key account_id stS env kvs p e h1 h2 h3 hp hex
        hrd).2.1⟩,
   fun a f e hmem herr =>
     runStatus_lookup_failure api_key account_id stT env input a f e hmem herr⟩

/-- Instantiation of `handlers_contain_faults` at a valid request: a failing
upload (`envFail`), a failing submission after a successful upload
(`envSendFail`), a local read failure (`envReadFail`) and a failing status
lookup (`envFail`) are each answered with the formatted failure message. -/
theorem handlers_contain_faults_witness :
    Call.upload_file "acct" [37, 80, 68, 70] "doc.pdf" "application/pdf" ∈
      (runSend "key" "acct" none (envFail "boom")
        (.ok (.obj [("fax_number", Json.str "+1"), ("subject", Json.str "S"),
          ("file_path", Json.str "/tmp/doc.pdf")]))).calls ∧
    (envFail "boom").upload_file "acct" [37, 80, 68, 70] "doc.pdf"
      "application/pdf" = .error ⟨"boom"⟩ ∧
    (runSend "key" "acct" none (envFail "boom")
        (.ok (.obj [("fax_number", Json.str "+1"), ("subject", Json.str "S"),
          ("file_path", Json.str "/tmp/doc.pdf")]))).result =
      "Error sending fax: boom" ∧
    Call.send_fax "acct" (Json.str "+1") (Json.str "S") (Json.str "") "file-1" ∈
      (runSend "key" "acct" none (envSendFail "boom")
        (.ok (.obj [("fax_number", Json.str "+1"), ("subject", Json.str "S"),
          ("file_path", Json.str "/tmp/doc.pdf")]))).calls ∧
    (runSend "key" "acct" none (envSendFail "boom")
        (.ok (.obj [("fax_number", Json.str "+1"), ("subject", Json.str "S"),
          ("file_path", Json.str "/tmp/doc.pdf")]))).result =
      "Error sending fax: boom" ∧
    (envReadFail "boom").read_bytes "/tmp/doc.pdf" = .error ⟨"boom"⟩ ∧
    (runSend "key" "acct" none (envReadFail "boom")
        (.ok (.obj [("fax_number", Json.str "+1"), ("subject", Json.str "S"),
          ("file_path", Json.str "/tmp/doc.pdf")]))).result =
      "Error sending fax: boom" ∧
    (runSend "key" "acct" none (envReadFail "boom")
        (.ok (.obj [("fax_number", Json.str "+1"), ("subject", Json.str "S"),
          ("file_path", Json.str "/tmp/doc.pdf")]))).calls = [] ∧
    Call.get_outbox_fax "acct" (Json.str "f1") ∈
      (runStatus "key" "acct" none (envFail "boom")
        (.ok (.obj [("fax_id", Json.str "f1")]))).calls ∧
    (runStatus "key" "acct" none (envFail "boom")
        (.ok (.obj [("fax_id", Json.str "f1")]))).result =
      "Error checking fax status: boom" := by
  have hmemU : Call.upload_file "acct" [37, 80, 68, 70] "doc.pdf"
      "application/pdf" ∈
      (runSend "key" "acct" none (envFail "boom")
        (.ok (.obj [("fax_number", Json.str "+1"), ("subject", Json.str "S"),
          ("file_path", Json.str "/tmp/doc.pdf")]))).calls := by
    rw [show (runSend "key" "acct" none (envFail "boom")
        (.ok (.obj [("fax_number", Json.str "+1"), ("subject", Json.str "S"),
          ("file_path", Json.str "/tmp/doc.pdf")]))).calls =
      [Call.upload_file "acct" [37, 80, 68, 70] "doc.pdf" "application/pdf"]
      from rfl]
    exact List.mem_cons_self _ _
  have hmemS : Call.send_fax "acct" (Json.str "+1") (Json.str "S")
      (Json.str "") "file-1" ∈
      (runSend "key" "acct" none (envSendFail "boom")
        (.ok (.obj [("fax_number", Json.str "+1"), ("subject", Json.str "S"),
          ("file_path", Json.str "/tmp/doc.pdf")]))).calls := by
    rw [show (runSend "key" "acct" none (envSendFail "boom")
        (.ok (.obj [("fax_number", Json.str "+1"), ("subject", Json.str "S"),
          ("file_path", Json.str "/tmp/doc.pdf")]))).calls =
      [Call.upload_file "acct" [37, 80, 68, 70] "doc.pdf" "application/pdf",
       Call.send_fax "acct" (Json.str "+1") (Json.str "S") (Json.str "")
         "file-1"] from rfl]
    exact List.mem_cons_of_mem _ (List.mem_cons_self _ _)
  have hmemG : Call.get_outbox_fax "acct" (Json.str "f1") ∈
      (runStatus "key" "acct" none (envFail "boom")
        (.ok (.obj [("fax_id", Json.str "f1")]))).calls := by
    rw [show (runStatus "key" "acct" none (envFail "boom")
        (.ok (.obj [("fax_id", Json.str "f1")]))).calls =
      [Call.get_outbox_fax "acct" (Json.str "f1")] from rfl]
    exact List.mem_cons_self _ _
  refine ⟨hmemU, rfl, ?_, hmemS, ?_, rfl, ?_, ?_, hmemG, ?_⟩
  · exact (handlers_contain_faults "key" "acct" none none (envFail "boom")
      (.ok (.obj [("fax_number", Json.str "+1"), ("subject", Json.str "S"),
        ("file_path", Json.str "/tmp/doc.pdf")]))).2.2.1
      "acct" [37, 80, 68, 70] "doc.pdf" "application/pdf" ⟨"boom"⟩ hmemU rfl
  · exact (handlers_contain_faults "key" "acct" none none (envSendFail "boom")
      (.ok (.obj [("fax_number", Json.str "+1"), ("subject", Json.str "S"),
        ("file_path", Json.str "/tmp/doc.pdf")]))).2.2.2.1
      "acct" (Json.str "+1") (Json.str "S") (Json.str "") "file-1" ⟨"boom"⟩
      hmemS rfl
  · exact ((handlers_contain_faults "key" "acct" none none (envReadFail "boom")
      (.ok (.obj [("fax_number", Json.str "+1"), ("subject", Json.str "S"),
        ("file_path", Json.str "/tmp/doc.pdf")]))).2.2.2.2.1
      [("fax_number", Json.str "+1"), ("subject", Json.str "S"),
       ("file_path", Json.str "/tmp/doc.pdf")] "/tmp/doc.pdf" ⟨"boom"⟩
      rfl (by decide) (by decide) rfl (by decide) rfl rfl).1
  · exact ((handlers_contain_faults "key" "acct" none none (envReadFail "boom")
      (.ok (.obj [("fax_number", Json.str "+1"), ("subject", Json.str "S"),
        ("file_path", Json.str "/tmp/doc.pdf")]))).2.2.2.2.1
      [("fax_number", Json.str "+1"), ("subject", Json.str "S"),
       ("file_path", Json.str "/tmp/doc.pdf")] "/tmp/doc.pdf" ⟨"boom"⟩
      rfl (by decide) (by decide) rfl (by decide) rfl rfl).2
  · exact (handlers_contain_faults "key" "acct" none none (envFail "boom")
      (.ok (.obj [("fax_id", Json.str "f1")]))).2.2.2.2.2
      "acct" (Json.str "f1") ⟨"boom"⟩ hmemG rfl
